import Mathlib

/-!
Verification of the noise stimulus frame-generation contract of the mozaik
test harness (tests/stimuli/vision/test_topographica_based.py) and of the
SparseNoise / DenseNoise generators it exercises.

The test file under src/ is the authority for the harness (frames_equal,
reference_frames).  The generator classes themselves
(mozaik/stimuli/vision/topographica_based.py) and the external imagen
samplers are not part of the sources; they are modelled from the spec
(sections 3, 4.1, 4.2 and 7), each such definition marked
`Modelled from the spec:`.
-/

namespace Mozaik

/-- A luminance field: a 2-D numeric array, values embedded as rationals. -/
abbrev Field := List (List ℚ)

/-- A frame as yielded by the generators in the test file: a numpy array
paired with an optional-parameters list (`yield (aux2, [0])`). -/
structure Frame where
  arr : Field
  md : List ℤ
deriving DecidableEq, Repr

/-- StimulusGeometry (spec section 3): extent, center offset and pixel density. -/
structure StimulusGeometry where
  size_x : ℚ
  size_y : ℚ
  location_x : ℚ
  location_y : ℚ
  density : ℚ
deriving DecidableEq, Repr

/-- NoiseConfig (spec section 3): grid geometry, luminance midpoint and timing. -/
structure NoiseConfig where
  grid_size : ℚ
  grid : Bool
  background_luminance : ℚ
  time_per_image : ℚ
  frame_duration : ℚ
deriving DecidableEq, Repr

/-- Modelled from the spec: RandomSource (section 3) is a seeded pseudo-random
generator, identical seed implies identical output sequence; the exact PRNG of
the external library (numpy RandomState) is left unpinned by the spec
(section 9), so a linear congruential step stands in. -/
def lcgStep (s : Nat) : Nat := (1103515245 * s + 12345) % 2 ^ 31

/-- The k-th raw value of the pseudo-random stream with the given seed. -/
def randAt (seed k : Nat) : Nat := Nat.iterate lcgStep (k + 1) (seed % 2 ^ 31)

/-- Mix a seed, draw number and pixel coordinates into one raw random value. -/
def mixRand (seed k r c : Nat) : Nat :=
  randAt (seed + 1000003 * (k + 1000003 * (r + 1000003 * c))) 0

/-- Number of pixels per side of a field of extent `size` at pixel `density`. -/
def pixelCount (size density : ℚ) : Nat := max 1 (Int.toNat ⌈size * density⌉)

/-- Modelled from the spec: Random Field Sampler, sparse variant
(section 4.1).  One non-background sample per draw: with `grid = true` it is
placed on the regular lattice of spacing `1 / gridDensity`; with
`grid = false` its position is drawn uniformly over the pixel grid.  The
sample value is drawn from the random source, scaled by `scale` and shifted
by `offset`; everywhere else the field holds the background level
`offset + scale / 2` (the spec's `background_luminance` when
`scale = 2 * background_luminance` and `offset = 0`). -/
def imagenSparseNoise (gridDensity scale offset sizeX density : ℚ)
    (grid : Bool) (seed k : Nat) : Field :=
  let px := pixelCount sizeX density
  let gcells := max 1 (Int.toNat ⌈sizeX * gridDensity⌉)
  let ar := if grid then mixRand seed k 0 0 % gcells * (px / gcells)
            else mixRand seed k 0 0 % px
  let ac := if grid then mixRand seed k 1 0 % gcells * (px / gcells)
            else mixRand seed k 1 0 % px
  let v := offset + scale * (mixRand seed k 2 0 % 1024 : Nat) / 1024
  (List.range px).map (fun r =>
    (List.range px).map (fun c =>
      if r = ar ∧ c = ac then v else offset + scale / 2))

/-- Modelled from the spec: Random Field Sampler, dense variant (section 4.1).
Every lattice cell receives an independent random sample; placement is always
the regular pixel grid. -/
def imagenDenseNoise (_gridDensity scale offset sizeX density : ℚ)
    (seed k : Nat) : Field :=
  let px := pixelCount sizeX density
  (List.range px).map (fun r =>
    (List.range px).map (fun c =>
      offset + scale * (mixRand seed k (r + 2) (c + 2) % 1024 : Nat) / 1024))

/-- Internal state of a running noise generator (spec sections 3 and 4.2):
the currently held field (none before the first pull), the countdown of
frames remaining before the next resample, and the position of the owned
random source in its stream. -/
structure GenState where
  held : Option Field
  countdown : Nat
  pos : Nat
deriving DecidableEq, Repr

/-- The state of a freshly constructed generator: nothing held yet, the
random source at its start. -/
def initState : GenState := ⟨none, 0, 0⟩

/-- Modelled from the spec: one `next_frame()` step (section 4.2).  On the
first call, and whenever the countdown has reached zero, draw a new field
from the sampler (advancing the random source) and reset the countdown to
`framesPerImage`; otherwise replay the held field without consuming
randomness.  Every frame carries the constant metadata list `[0]`
(section 4.2). -/
def nextFrame (sample : Nat → Field) (fpi : Nat) (s : GenState) :
    Frame × GenState :=
  match s.held with
  | none => (⟨sample s.pos, [0]⟩, ⟨some (sample s.pos), fpi - 1, s.pos + 1⟩)
  | some f =>
      if s.countdown = 0 then
        (⟨sample s.pos, [0]⟩, ⟨some (sample s.pos), fpi - 1, s.pos + 1⟩)
      else
        (⟨f, [0]⟩, ⟨some f, s.countdown - 1, s.pos⟩)

/-- The state after `n` pulls from state `s`. -/
def genStateAt (sample : Nat → Field) (fpi : Nat) (s : GenState) : Nat → GenState
  | 0 => s
  | n + 1 => (nextFrame sample fpi (genStateAt sample fpi s n)).2

/-- The frame returned by the `(i+1)`-th pull (0-based index `i`). -/
def frameAt (sample : Nat → Field) (fpi : Nat) (s : GenState) (i : Nat) : Frame :=
  (nextFrame sample fpi (genStateAt sample fpi s i)).1

/-- The number of output frames one sampled image is held for:
`time_per_image / frame_duration` (spec section 4.2). -/
def framesPerImage (cfg : NoiseConfig) : ℚ := cfg.time_per_image / cfg.frame_duration

/-- `framesPerImage` as a natural number (meaningful when the timing is valid). -/
def fpiNat (cfg : NoiseConfig) : Nat := (framesPerImage cfg).num.toNat

/-- Modelled from the spec: the timing validation (sections 4.2 and 7):
`time_per_image` must be a positive exact integer multiple of
`frame_duration`. -/
def validTiming (cfg : NoiseConfig) : Bool :=
  (framesPerImage cfg).den == 1 && decide (0 < (framesPerImage cfg).num)

/-- Modelled from the spec: the grid-size validation (sections 4.2 and 7):
`grid_size` must be a positive integer; non-positive or non-integral values
are rejected. -/
def validGridSize (gs : ℚ) : Bool := gs.den == 1 && decide (0 < gs.num)

/-- The construction-time error taxonomy (spec section 7). -/
inductive ConstructError where
  /-- Timing mismatch (AssertionError-equivalent). -/
  | invalidConfiguration : ConstructError
  /-- Invalid grid size (ValueError-equivalent). -/
  | valueError : ConstructError
deriving DecidableEq, Repr

/-- A constructed noise generator: fixed geometry, configuration, variant
flag, seed, and the mutable state it threads through pulls. -/
structure NoiseGenerator where
  geom : StimulusGeometry
  cfg : NoiseConfig
  dense : Bool
  seed : Nat
  state : GenState
deriving DecidableEq, Repr

/-- Modelled from the spec: construction of a SparseNoise (`dense = false`)
or DenseNoise (`dense = true`) generator (sections 4.2 and 7).  All
validation is performed here, eagerly: an invalid `time_per_image /
frame_duration` ratio is an `invalidConfiguration`, an invalid `grid_size` a
`valueError`; otherwise the generator starts in `initState`. -/
def construct (dense : Bool) (geom : StimulusGeometry) (cfg : NoiseConfig)
    (seed : Nat) : Except ConstructError NoiseGenerator :=
  if validTiming cfg then
    if validGridSize cfg.grid_size then
      Except.ok ⟨geom, cfg, dense, seed, initState⟩
    else
      Except.error ConstructError.valueError
  else
    Except.error ConstructError.invalidConfiguration

/-- Modelled from the spec: the sampler a constructed generator wraps
(sections 4.1 and 4.2), with the same parameter derivation the reference in
the test file uses: `grid_density = grid_size / size_x`,
`scale = 2 * background_luminance`, `offset = 0`, pixel densities from the
geometry, seeded from the generator's own seed. -/
def NoiseGenerator.sampleFun (g : NoiseGenerator) : Nat → Field :=
  fun k =>
    if g.dense then
      imagenDenseNoise (g.cfg.grid_size / g.geom.size_x)
        (2 * g.cfg.background_luminance) 0 g.geom.size_x g.geom.density g.seed k
    else
      imagenSparseNoise (g.cfg.grid_size / g.geom.size_x)
        (2 * g.cfg.background_luminance) 0 g.geom.size_x g.geom.density
        g.cfg.grid g.seed k

/-- The frame stream of a constructed generator: the i-th pull. -/
def NoiseGenerator.frames (g : NoiseGenerator) (i : Nat) : Frame :=
  frameAt g.sampleFun (fpiNat g.cfg) g.state i

/-- The `frames_equal` loop of the test harness
(TopographicaBasedVisualStimulusTester.frames_equal, test file lines 88-97),
instrumented with the number of `next()` calls made on each stream: at index
`i` it pulls one frame from each stream, compares the numpy arrays
(`numpy.array_equal(f0[0], f1[0])`) and the metadata lists (`f0[1] == f1[1]`),
returns `false` immediately on a mismatch, and `true` after `n` equal pairs.
The second component is the count of frames pulled from each stream. -/
def feAux (g0 g1 : Nat → Frame) : Nat → Nat → Bool × Nat
  | 0, i => (true, i)
  | n + 1, i =>
      if (g0 i).arr = (g1 i).arr ∧ (g0 i).md = (g1 i).md then
        feAux g0 g1 n (i + 1)
      else
        (false, i + 1)

/-- `frames_equal(g0, g1, num_frames)` with the pull count: the loop started
at index 0. -/
def framesEqualCount (g0 g1 : Nat → Frame) (n : Nat) : Bool × Nat :=
  feAux g0 g1 n 0

/-- The boolean result of `frames_equal(g0, g1, num_frames)`. -/
def framesEqual (g0 g1 : Nat → Frame) (n : Nat) : Bool :=
  (framesEqualCount g0 g1 n).1

/-- The i-th frame yielded by `TestSparseNoise.reference_frames` (test file
lines 142-166): the external sparse sampler is constructed with
`grid_density = grid_size * 1.0 / size_x`, `offset = 0`,
`scale = 2 * background_luminance`, bounds of radius `size_x / 2`, pixel
densities `density`, and a fresh random source with the given seed; the loop
yields each draw `time_per_image / frame_duration` consecutive times, so
pull `i` returns draw number `i / fpi`. -/
def referenceSparseFrames (cfg : NoiseConfig) (geom : StimulusGeometry)
    (seed : Nat) (i : Nat) : Frame :=
  ⟨imagenSparseNoise (cfg.grid_size * 1 / geom.size_x)
      (2 * cfg.background_luminance) 0 geom.size_x geom.density cfg.grid seed
      (i / fpiNat cfg),
    [0]⟩

/-- Modelled from the spec: the base visual-stimulus abstraction
(TopographicaBasedVisualStimulus; the class body lives outside src/).  Only
its geometry parameters and the `transparent` property matter here. -/
structure TopographicaBasedVisualStimulus where
  size_x : ℚ
  size_y : ℚ
  location_x : ℚ
  location_y : ℚ
deriving DecidableEq, Repr

/-- Modelled from the spec: the `transparent` property is always false for
the Topographica-based family (spec sections 4.2 and 8.6). -/
def TopographicaBasedVisualStimulus.transparent
    (_ : TopographicaBasedVisualStimulus) : Bool := false

/-! ### Harness lemmas -/

lemma feAux_eq_true (g0 g1 : Nat → Frame) :
    ∀ (n i : Nat),
      (∀ j, j < n → (g0 (i + j)).arr = (g1 (i + j)).arr ∧
        (g0 (i + j)).md = (g1 (i + j)).md) →
      feAux g0 g1 n i = (true, i + n) := by
  intro n
  induction n with
  | zero => intro i _; rfl
  | succ n ih =>
      intro i h
      have h0 := h 0 n.succ_pos
      rw [Nat.add_zero] at h0
      have hrest : ∀ j, j < n → (g0 (i + 1 + j)).arr = (g1 (i + 1 + j)).arr ∧
          (g0 (i + 1 + j)).md = (g1 (i + 1 + j)).md := by
        intro j hj
        have e : i + 1 + j = i + (j + 1) := by omega
        rw [e]
        exact h (j + 1) (by omega)
      have e2 : i + 1 + n = i + (n + 1) := by omega
      simp only [feAux, if_pos h0]
      rw [ih (i + 1) hrest, e2]

lemma feAux_true_imp (g0 g1 : Nat → Frame) :
    ∀ (n i : Nat), (feAux g0 g1 n i).1 = true →
      ∀ j, j < n → (g0 (i + j)).arr = (g1 (i + j)).arr ∧
        (g0 (i + j)).md = (g1 (i + j)).md := by
  intro n
  induction n with
  | zero => intro i _ j hj; omega
  | succ n ih =>
      intro i h j hj
      by_cases h0 : (g0 i).arr = (g1 i).arr ∧ (g0 i).md = (g1 i).md
      · rw [feAux, if_pos h0] at h
        cases j with
        | zero => simpa using h0
        | succ j =>
            have e : i + (j + 1) = i + 1 + j := by omega
            rw [e]
            exact ih (i + 1) h j (by omega)
      · rw [feAux, if_neg h0] at h
        simp at h

lemma feAux_eq_false (g0 g1 : Nat → Frame) :
    ∀ (n i j : Nat), j < n →
      ¬((g0 (i + j)).arr = (g1 (i + j)).arr ∧ (g0 (i + j)).md = (g1 (i + j)).md) →
      (∀ l, l < j → (g0 (i + l)).arr = (g1 (i + l)).arr ∧
        (g0 (i + l)).md = (g1 (i + l)).md) →
      feAux g0 g1 n i = (false, i + j + 1) := by
  intro n
  induction n with
  | zero => intro i j hj; omega
  | succ n ih =>
      intro i j hj hne heq
      cases j with
      | zero =>
          rw [Nat.add_zero] at hne
          rw [feAux, if_neg hne]
      | succ j =>
          have h0 := heq 0 j.succ_pos
          rw [Nat.add_zero] at h0
          have hne2 : ¬((g0 (i + 1 + j)).arr = (g1 (i + 1 + j)).arr ∧
              (g0 (i + 1 + j)).md = (g1 (i + 1 + j)).md) := by
            have e : i + 1 + j = i + (j + 1) := by omega
            rw [e]; exact hne
          have heq2 : ∀ l, l < j → (g0 (i + 1 + l)).arr = (g1 (i + 1 + l)).arr ∧
              (g0 (i + 1 + l)).md = (g1 (i + 1 + l)).md := by
            intro l hl
            have e : i + 1 + l = i + (l + 1) := by omega
            rw [e]; exact heq (l + 1) (by omega)
          have e2 : i + 1 + j + 1 = i + (j + 1) + 1 := by omega
          rw [feAux, if_pos h0, ih (i + 1) j (by omega) hne2 heq2, e2]

lemma framesEqualCount_eq_true (g0 g1 : Nat → Frame) (n : Nat)
    (h : ∀ j, j < n → (g0 j).arr = (g1 j).arr ∧ (g0 j).md = (g1 j).md) :
    framesEqualCount g0 g1 n = (true, n) := by
  have := feAux_eq_true g0 g1 n 0 (fun j hj => by simpa using h j hj)
  simpa [framesEqualCount] using this

/-! ### Generator-state lemmas, specialised to frames-per-image 2 -/

lemma genStateAt_two (sample : Nat → Field) :
    ∀ j, genStateAt sample 2 initState (j + 1) =
      ⟨some (sample (j / 2)), 1 - j % 2, j / 2 + 1⟩ := by
  intro j
  induction j with
  | zero => rfl
  | succ j ih =>
      show (nextFrame sample 2 (genStateAt sample 2 initState (j + 1))).2 = _
      rw [ih]
      rcases Nat.mod_two_eq_zero_or_one j with h | h
      · have h1 : 1 - j % 2 = 1 := by omega
        have h2 : (j + 1) / 2 = j / 2 := by omega
        have h3 : 1 - (j + 1) % 2 = 0 := by omega
        simp [nextFrame, h1, h2, h3]
      · have h1 : 1 - j % 2 = 0 := by omega
        have h2 : (j + 1) / 2 = j / 2 + 1 := by omega
        have h3 : 1 - (j + 1) % 2 = 1 := by omega
        simp [nextFrame, h1, h2, h3]

lemma frameAt_two (sample : Nat → Field) (i : Nat) :
    frameAt sample 2 initState i = ⟨sample (i / 2), [0]⟩ := by
  cases i with
  | zero => rfl
  | succ j =>
      show (nextFrame sample 2 (genStateAt sample 2 initState (j + 1))).1 = _
      rw [genStateAt_two]
      rcases Nat.mod_two_eq_zero_or_one j with h | h
      · have h1 : 1 - j % 2 = 1 := by omega
        have h2 : (j + 1) / 2 = j / 2 := by omega
        simp [nextFrame, h1, h2]
      · have h1 : 1 - j % 2 = 0 := by omega
        have h2 : (j + 1) / 2 = j / 2 + 1 := by omega
        simp [nextFrame, h1, h2]

lemma frameAt_md (sample : Nat → Field) (fpi : Nat) (s : GenState) (i : Nat) :
    (frameAt sample fpi s i).md = [0] := by
  cases h : (genStateAt sample fpi s i).held with
  | none => simp [frameAt, nextFrame, h]
  | some f =>
      by_cases hc : (genStateAt sample fpi s i).countdown = 0 <;>
        simp [frameAt, nextFrame, h, hc]

lemma construct_ok (dense : Bool) (geom : StimulusGeometry) (cfg : NoiseConfig)
    (seed : Nat) (g : NoiseGenerator)
    (h : construct dense geom cfg seed = Except.ok g) :
    g = ⟨geom, cfg, dense, seed, initState⟩ := by
  unfold construct at h
  by_cases h1 : validTiming cfg = true
  · rw [if_pos h1] at h
    by_cases h2 : validGridSize cfg.grid_size = true
    · rw [if_pos h2] at h
      injection h with h3
      exact h3.symm
    · rw [if_neg h2] at h
      cases h
  · rw [if_neg h1] at h
    cases h

lemma frames_closed_two (g : NoiseGenerator) (hfpi : fpiNat g.cfg = 2)
    (hs : g.state = initState) (i : Nat) :
    g.frames i = ⟨g.sampleFun (i / 2), [0]⟩ := by
  unfold NoiseGenerator.frames
  rw [hfpi, hs, frameAt_two]

lemma reference_matches_frames (cfg : NoiseConfig) (geom : StimulusGeometry)
    (seed : Nat) (i : Nat) (hfpi : fpiNat cfg = 2) :
    referenceSparseFrames cfg geom seed i =
      NoiseGenerator.frames ⟨geom, cfg, false, seed, initState⟩ i := by
  rw [frames_closed_two ⟨geom, cfg, false, seed, initState⟩ hfpi rfl]
  unfold referenceSparseFrames NoiseGenerator.sampleFun
  rw [hfpi]
  norm_num

/-! ### Arithmetic facts about the validation predicates -/

lemma validTiming_two_one (gs : ℚ) (grid : Bool) (bg : ℚ) :
    validTiming ⟨gs, grid, bg, 2, 1⟩ = true := by
  have h1 : ((2 : ℚ) / 1).den = 1 := by norm_num
  have h2 : ((2 : ℚ) / 1).num = 2 := by norm_num
  simp [validTiming, framesPerImage, h1, h2]

lemma validGridSize_true_of (gs : ℚ) (h1 : gs.den = 1) (h2 : 0 < gs.num) :
    validGridSize gs = true := by
  simp [validGridSize, h1, h2]

lemma fpiNat_two_one (cfg : NoiseConfig) (ht : cfg.time_per_image = 2)
    (hf : cfg.frame_duration = 1) : fpiNat cfg = 2 := by
  have h2 : ((2 : ℚ) / 1).num = 2 := by norm_num
  unfold fpiNat framesPerImage
  rw [ht, hf, h2]
  decide

lemma construct_ok_valid (dense : Bool) (geom : StimulusGeometry)
    (cfg : NoiseConfig) (seed : Nat) (h1 : validTiming cfg = true)
    (h2 : validGridSize cfg.grid_size = true) :
    construct dense geom cfg seed =
      Except.ok ⟨geom, cfg, dense, seed, initState⟩ := by
  unfold construct
  rw [if_pos h1, if_pos h2]

/-! ### The concrete golden-test parameter tuples (seed 0, default timing) -/

/-- Tuple 1 geometry: size_x = 10, default size_y 11, centered, density 5.0. -/
def sparseGeom1 : StimulusGeometry := ⟨10, 11, 0, 0, 5⟩

/-- Tuple 1 noise parameters: grid_size 10, grid true, background 50,
default timing time_per_image 2, frame_duration 1. -/
def sparseCfg1 : NoiseConfig := ⟨10, true, 50, 2, 1⟩

/-- Tuple 2 geometry: size_x = 15, default size_y 11, centered, density 6.0. -/
def sparseGeom2 : StimulusGeometry := ⟨15, 11, 0, 0, 6⟩

/-- Tuple 2 noise parameters: grid_size 15, grid false, background 60,
default timing time_per_image 2, frame_duration 1. -/
def sparseCfg2 : NoiseConfig := ⟨15, false, 60, 2, 1⟩

/-! ### Claim theorems -/

/-- Claim C1: with seed 0 and the default timing (time_per_image 2,
frame_duration 1), for both golden parameter tuples
(grid_size 10, size_x 10, grid true, background 50, density 5.0) and
(grid_size 15, size_x 15, grid false, background 60, density 6.0), the first
100 frames of the constructed sparse-noise generator match the first 100
frames of the independent reference sampler element-for-element, arrays and
metadata alike, and the harness comparison returns true after pulling all
100 frames. -/
theorem sparse_noise_golden (g1 g2 : NoiseGenerator)
    (h1 : construct false sparseGeom1 sparseCfg1 0 = Except.ok g1)
    (h2 : construct false sparseGeom2 sparseCfg2 0 = Except.ok g2) :
    ((∀ i, i < 100 → referenceSparseFrames sparseCfg1 sparseGeom1 0 i = g1.frames i) ∧
      framesEqualCount (referenceSparseFrames sparseCfg1 sparseGeom1 0)
        g1.frames 100 = (true, 100)) ∧
    ((∀ i, i < 100 → referenceSparseFrames sparseCfg2 sparseGeom2 0 i = g2.frames i) ∧
      framesEqualCount (referenceSparseFrames sparseCfg2 sparseGeom2 0)
        g2.frames 100 = (true, 100)) := by
  have e1 := construct_ok false sparseGeom1 sparseCfg1 0 g1 h1
  have e2 := construct_ok false sparseGeom2 sparseCfg2 0 g2 h2
  subst e1
  subst e2
  have hf1 : fpiNat sparseCfg1 = 2 := fpiNat_two_one sparseCfg1 rfl rfl
  have hf2 : fpiNat sparseCfg2 = 2 := fpiNat_two_one sparseCfg2 rfl rfl
  have key1 : ∀ i, referenceSparseFrames sparseCfg1 sparseGeom1 0 i =
      NoiseGenerator.frames ⟨sparseGeom1, sparseCfg1, false, 0, initState⟩ i :=
    fun i => reference_matches_frames sparseCfg1 sparseGeom1 0 i hf1
  have key2 : ∀ i, referenceSparseFrames sparseCfg2 sparseGeom2 0 i =
      NoiseGenerator.frames ⟨sparseGeom2, sparseCfg2, false, 0, initState⟩ i :=
    fun i => reference_matches_frames sparseCfg2 sparseGeom2 0 i hf2
  refine ⟨⟨fun i _ => key1 i, ?_⟩, ⟨fun i _ => key2 i, ?_⟩⟩
  · exact framesEqualCount_eq_true _ _ 100 (fun j _ => by rw [key1 j]; exact ⟨rfl, rfl⟩)
  · exact framesEqualCount_eq_true _ _ 100 (fun j _ => by rw [key2 j]; exact ⟨rfl, rfl⟩)

/-- Witness for C1 at the two concrete generators the constructor yields. -/
theorem sparse_noise_golden_witness :
    framesEqualCount (referenceSparseFrames sparseCfg1 sparseGeom1 0)
      (NoiseGenerator.frames ⟨sparseGeom1, sparseCfg1, false, 0, initState⟩)
      100 = (true, 100) ∧
    framesEqualCount (referenceSparseFrames sparseCfg2 sparseGeom2 0)
      (NoiseGenerator.frames ⟨sparseGeom2, sparseCfg2, false, 0, initState⟩)
      100 = (true, 100) := by
  have c1 : construct false sparseGeom1 sparseCfg1 0 =
      Except.ok ⟨sparseGeom1, sparseCfg1, false, 0, initState⟩ :=
    construct_ok_valid false sparseGeom1 sparseCfg1 0
      (validTiming_two_one 10 true 50)
      (validGridSize_true_of 10 (by norm_num) (by norm_num))
  have c2 : construct false sparseGeom2 sparseCfg2 0 =
      Except.ok ⟨sparseGeom2, sparseCfg2, false, 0, initState⟩ :=
    construct_ok_valid false sparseGeom2 sparseCfg2 0
      (validTiming_two_one 15 false 60)
      (validGridSize_true_of 15 (by norm_num) (by norm_num))
  exact ⟨((sparse_noise_golden _ _ c1 c2).1).2, ((sparse_noise_golden _ _ c1 c2).2).2⟩

/-- Claim C2: determinism — two generators constructed independently from
the same geometry, noise configuration and seed, each owning its own random
source initialised from that seed, produce identical frame streams: every
prefix agrees pointwise and the harness comparison accepts every prefix
length. -/
theorem noise_determinism (dense : Bool) (geom : StimulusGeometry)
    (cfg : NoiseConfig) (seed : Nat) (n : Nat) (ga gb : NoiseGenerator)
    (ha : construct dense geom cfg seed = Except.ok ga)
    (hb : construct dense geom cfg seed = Except.ok gb) :
    (∀ i, i < n → ga.frames i = gb.frames i) ∧
      framesEqualCount ga.frames gb.frames n = (true, n) := by
  have ea := construct_ok dense geom cfg seed ga ha
  have eb := construct_ok dense geom cfg seed gb hb
  subst ea
  subst eb
  exact ⟨fun i _ => rfl, framesEqualCount_eq_true _ _ n (fun j _ => ⟨rfl, rfl⟩)⟩

/-- Witness for C2 at a concrete configuration and prefix length. -/
theorem noise_determinism_witness :
    framesEqualCount
      (NoiseGenerator.frames ⟨⟨10, 11, 0, 0, 5⟩, ⟨10, true, 50, 2, 1⟩, false, 0, initState⟩)
      (NoiseGenerator.frames ⟨⟨10, 11, 0, 0, 5⟩, ⟨10, true, 50, 2, 1⟩, false, 0, initState⟩)
      5 = (true, 5) := by
  have c : construct false ⟨10, 11, 0, 0, 5⟩ ⟨10, true, 50, 2, 1⟩ 0 =
      Except.ok ⟨⟨10, 11, 0, 0, 5⟩, ⟨10, true, 50, 2, 1⟩, false, 0, initState⟩ :=
    construct_ok_valid false ⟨10, 11, 0, 0, 5⟩ ⟨10, true, 50, 2, 1⟩ 0
      (validTiming_two_one 10 true 50)
      (validGridSize_true_of 10 (by norm_num) (by norm_num))
  exact (noise_determinism false ⟨10, 11, 0, 0, 5⟩ ⟨10, true, 50, 2, 1⟩ 0 5 _ _ c c).2

/-- Claim C3: constructing a noise generator with time_per_image 1.4 and
frame_duration 1.5 fails at construction with the AssertionError-equivalent
invalidConfiguration, because 1.4 / 1.5 is not an integer; this holds for
the sparse and the dense variant alike, whatever the other parameters. -/
theorem timing_validation (dense : Bool) (geom : StimulusGeometry) (gs : ℚ)
    (grid : Bool) (bg : ℚ) (seed : Nat) :
    construct dense geom ⟨gs, grid, bg, 1.4, 1.5⟩ seed =
      Except.error ConstructError.invalidConfiguration := by
  have hd : ((1.4 : ℚ) / 1.5).den = 15 := by norm_num
  have h : validTiming ⟨gs, grid, bg, 1.4, 1.5⟩ = false := by
    simp [validTiming, framesPerImage, hd]
  unfold construct
  rw [if_neg (by simp [h])]

/-- Claim C4: for grid_size in {-1, 0, 0.9, 0.9999999999} construction of
either noise variant fails with the ValueError-equivalent, eagerly at
construction time (the error is the constructor's result; no frame is ever
produced), whatever the other parameters. -/
theorem grid_size_validation (dense : Bool) (geom : StimulusGeometry)
    (grid : Bool) (bg : ℚ) (seed : Nat) (gs : ℚ)
    (h : gs = -1 ∨ gs = 0 ∨ gs = 0.9 ∨ gs = 0.9999999999) :
    construct dense geom ⟨gs, grid, bg, 2, 1⟩ seed =
      Except.error ConstructError.valueError := by
  have hT : validTiming ⟨gs, grid, bg, 2, 1⟩ = true := validTiming_two_one gs grid bg
  have hG : validGridSize gs = false := by
    rcases h with h | h | h | h
    all_goals subst h
    · have h1 : ((-1 : ℚ)).num = -1 := by norm_num
      simp [validGridSize, h1]
    · simp [validGridSize]
    · have h1 : ((0.9 : ℚ)).den = 10 := by norm_num
      simp [validGridSize, h1]
    · have h1 : ((0.9999999999 : ℚ)).den = 10000000000 := by norm_num
      simp [validGridSize, h1]
  unfold construct
  rw [if_pos hT, if_neg (by simp [hG])]

/-- Witness for C4 at grid_size -1, sparse variant. -/
theorem grid_size_validation_witness :
    construct false ⟨11, 11, 0, 0, 10⟩ ⟨-1, false, 50, 2, 1⟩ 0 =
      Except.error ConstructError.valueError :=
  grid_size_validation false ⟨11, 11, 0, 0, 10⟩ false 50 0 (-1) (Or.inl rfl)

/-- Claim C5: hold semantics — for a generator constructed with
time_per_image 2 and frame_duration 1, frames 2k and 2k+1 are identical
(the held field is replayed, no new randomness consumed), while frames 2k+1
and 2k+2 differ whenever the random source yields a different draw for image
k+1 than for image k. -/
theorem hold_semantics (dense : Bool) (geom : StimulusGeometry)
    (cfg : NoiseConfig) (seed : Nat) (g : NoiseGenerator) (k : Nat)
    (h : construct dense geom cfg seed = Except.ok g)
    (ht : cfg.time_per_image = 2) (hf : cfg.frame_duration = 1) :
    g.frames (2 * k) = g.frames (2 * k + 1) ∧
      (g.sampleFun k ≠ g.sampleFun (k + 1) →
        g.frames (2 * k + 1) ≠ g.frames (2 * k + 2)) := by
  have e := construct_ok dense geom cfg seed g h
  subst e
  have hfpi : fpiNat cfg = 2 := fpiNat_two_one cfg ht hf
  constructor
  · rw [frames_closed_two _ hfpi rfl, frames_closed_two _ hfpi rfl]
    have e1 : 2 * k / 2 = k := by omega
    have e2 : (2 * k + 1) / 2 = k := by omega
    rw [e1, e2]
  · intro hne
    rw [frames_closed_two _ hfpi rfl, frames_closed_two _ hfpi rfl]
    have e2 : (2 * k + 1) / 2 = k := by omega
    have e3 : (2 * k + 2) / 2 = k + 1 := by omega
    rw [e2, e3]
    intro heq
    exact hne (congrArg Frame.arr heq)

/-- The sampler of a concrete dense generator on a 1x1-pixel geometry
reduces to a single mixed pseudo-random value. -/
lemma sampleFun_dense_demo (k : Nat) :
    NoiseGenerator.sampleFun
        ⟨⟨1, 1, 0, 0, 1⟩, ⟨1, false, 50, 2, 1⟩, true, 0, initState⟩ k =
      [[100 * ((mixRand 0 k 2 2 % 1024 : Nat) : ℚ) / 1024]] := by
  have hpx : pixelCount 1 1 = 1 := by
    unfold pixelCount
    norm_num
  unfold NoiseGenerator.sampleFun imagenDenseNoise
  rw [hpx]
  have hr : List.range 1 = [0] := rfl
  norm_num [hr]

/-- Witness for C5: a concrete dense generator (1x1 pixel geometry, seed 0)
whose first two draws differ, exhibiting both the held pair and the change
at the image boundary. -/
theorem hold_semantics_witness :
    NoiseGenerator.frames ⟨⟨1, 1, 0, 0, 1⟩, ⟨1, false, 50, 2, 1⟩, true, 0, initState⟩ 0 =
      NoiseGenerator.frames ⟨⟨1, 1, 0, 0, 1⟩, ⟨1, false, 50, 2, 1⟩, true, 0, initState⟩ 1 ∧
    NoiseGenerator.frames ⟨⟨1, 1, 0, 0, 1⟩, ⟨1, false, 50, 2, 1⟩, true, 0, initState⟩ 1 ≠
      NoiseGenerator.frames ⟨⟨1, 1, 0, 0, 1⟩, ⟨1, false, 50, 2, 1⟩, true, 0, initState⟩ 2 := by
  have c : construct true ⟨1, 1, 0, 0, 1⟩ ⟨1, false, 50, 2, 1⟩ 0 =
      Except.ok ⟨⟨1, 1, 0, 0, 1⟩, ⟨1, false, 50, 2, 1⟩, true, 0, initState⟩ :=
    construct_ok_valid true ⟨1, 1, 0, 0, 1⟩ ⟨1, false, 50, 2, 1⟩ 0
      (validTiming_two_one 1 false 50)
      (validGridSize_true_of 1 (by norm_num) (by norm_num))
  have h := hold_semantics true ⟨1, 1, 0, 0, 1⟩ ⟨1, false, 50, 2, 1⟩ 0 _ 0 c rfl rfl
  refine ⟨h.1, h.2 ?_⟩
  rw [sampleFun_dense_demo 0, sampleFun_dense_demo 1]
  have e0 : mixRand 0 0 2 2 % 1024 = 353 := by decide
  have e1 : mixRand 0 1 2 2 % 1024 = 488 := by decide
  rw [e0, e1]
  intro hq
  rw [List.cons.injEq, List.cons.injEq] at hq
  have hv := hq.1.1
  norm_num at hv

/-- Claim C6 (amended): frames_equal(g0, g1, n) returns true iff for every
index i < n the arrays and the metadata of the i-th frames agree; when all n
pairs agree it pulls exactly n frames from each stream; on a mismatch it
returns false at the first mismatching index j, having pulled j + 1 frames
from each stream (not n). -/
theorem frames_equal_spec (g0 g1 : Nat → Frame) (n : Nat) :
    (framesEqual g0 g1 n = true ↔
      ∀ i, i < n → (g0 i).arr = (g1 i).arr ∧ (g0 i).md = (g1 i).md) ∧
    (framesEqual g0 g1 n = true → framesEqualCount g0 g1 n = (true, n)) ∧
    (∀ j, j < n →
      ¬((g0 j).arr = (g1 j).arr ∧ (g0 j).md = (g1 j).md) →
      (∀ l, l < j → (g0 l).arr = (g1 l).arr ∧ (g0 l).md = (g1 l).md) →
      framesEqualCount g0 g1 n = (false, j + 1)) := by
  have hforward : framesEqual g0 g1 n = true →
      ∀ i, i < n → (g0 i).arr = (g1 i).arr ∧ (g0 i).md = (g1 i).md := by
    intro h i hi
    have := feAux_true_imp g0 g1 n 0 h i hi
    simpa using this
  refine ⟨⟨hforward, ?_⟩, ?_, ?_⟩
  · intro h
    have hc := framesEqualCount_eq_true g0 g1 n h
    simp [framesEqual, hc]
  · intro h
    exact framesEqualCount_eq_true g0 g1 n (hforward h)
  · intro j hj hne heq
    have := feAux_eq_false g0 g1 n 0 j hj (by simpa using hne)
      (fun l hl => by simpa using heq l hl)
    simpa [framesEqualCount] using this

/-- A constant stream used to exercise frames_equal concretely. -/
def mismatchStreamA : Nat → Frame := fun _ => ⟨[[0]], [0]⟩

/-- A second constant stream differing from mismatchStreamA at every index. -/
def mismatchStreamB : Nat → Frame := fun _ => ⟨[[1]], [0]⟩

/-- Counterexample for C6 as stated: with a mismatch at index 0 and n = 2,
frames_equal returns false having pulled only 1 frame from each stream, not
exactly n = 2. -/
theorem frames_equal_pull_counterexample :
    framesEqualCount mismatchStreamA mismatchStreamB 2 = (false, 1) ∧
      (1 : Nat) ≠ 2 := by
  constructor
  · decide
  · decide

/-- Witness for C6 exercising both the all-equal branch and the mismatch
branch at concrete streams. -/
theorem frames_equal_spec_witness :
    framesEqualCount mismatchStreamA mismatchStreamA 3 = (true, 3) ∧
      framesEqualCount mismatchStreamA mismatchStreamB 3 = (false, 1) :=
  ⟨(frames_equal_spec mismatchStreamA mismatchStreamA 3).2.1 (by decide),
    (frames_equal_spec mismatchStreamA mismatchStreamB 3).2.2 0 (by decide)
      (by decide) (fun l hl => absurd hl (by omega))⟩

/-- Claim C7: every stimulus of the Topographica-based family, including the
minimal one with size_x 1, size_y 1 located at the origin, reports
transparent = false. -/
theorem tbvs_nontransparent (t : TopographicaBasedVisualStimulus) :
    t.transparent = false := rfl

/-- Claim C8: every frame produced by a noise stimulus generator, sparse or
dense, at every position of the stream, carries the single-element metadata
list [0]. -/
theorem frame_metadata (g : NoiseGenerator) (i : Nat) :
    (g.frames i).md = [0] := frameAt_md _ _ _ _

/-- Claim C10: frames_equal with n = 0 returns true for every pair of
streams, pulling no frame from either (the pull count is 0). -/
theorem frames_equal_zero (g0 g1 : Nat → Frame) :
    framesEqualCount g0 g1 0 = (true, 0) := rfl

end Mozaik
